import Mathlib

/-!
# dtimelog: `dtimelog_gui/main.cc`

The translation unit declares one aggregate, `Greeter`, declares (but never
defines) an operation `greet` taking a `std::string`, and has an entry point
whose body is

    auto greeter = Greeter("Hello");
    greeter.greet("David");

Since `greet` has no body anywhere in the repository, it is a parameter of the
model: every result below is quantified over all of its possible behaviours.
-/

namespace Dtimelog

/-! ## Data model -/

/-- The aggregate of main.cc, lines 3-5: one `std::string` member, no
constructor, no member function, no comparison operator. -/
structure Greeter where
  greeting : String
deriving DecidableEq, Repr

/-- The operation `Greeter::greet(std::string)` of line 7, which the source only
declares.  It receives the object it is called on and the name, and acts on an
arbitrary world state `W` (whatever it prints, reads or changes).  `none` stands
for a call that never returns. -/
abbrev Greet (W : Type) : Type := Greeter → String → W → Option W

/-! ## Entry point -/

/-- The function `int main (void)` of lines 9-12.  It builds `greeter` from the
literal "Hello", calls `greet` on it with the literal "David", and then falls
off the end of its body, which for the entry point yields exit status 0. -/
def main {W : Type} (greet : Greet W) (w : W) : Option (W × Int) :=
  let greeter := Greeter.mk "Hello"
  match greet greeter "David" w with
  | none => none
  | some w1 => some (w1, 0)

/-- One observable implementation of `greet`: the world is the list of calls made
so far, and each call appends the pair of its receiver and its argument. -/
def recordingGreet : Greet (List (Greeter × String)) :=
  fun g name calls => some (calls ++ [(g, name)])

/-! ## Statement view of the entry point -/

/-- Expression forms, as far as the statements of a function body need them. -/
inductive Expr where
  /-- a string literal -/
  | strLit (s : String)
  /-- a use of a local variable -/
  | var (x : String)
  /-- the conversion `T(arg)` -/
  | construct (ty : String) (arg : Expr)
  /-- the member call `recv.method(arg)` -/
  | memberCall (recv : Expr) (method : String) (arg : Expr)
  /-- the conditional operator `c ? t : e` -/
  | conditional (c t e : Expr)
  /-- the expression `throw e` -/
  | throwExpr (e : Expr)
deriving DecidableEq, Repr

/-- Statement forms of a function body. -/
inductive Stmt where
  /-- the declaration `auto x = init;` -/
  | declAuto (x : String) (init : Expr)
  /-- an expression statement `e;` -/
  | exprStmt (e : Expr)
  /-- the statement `if (c) t else e` -/
  | ifElse (c : Expr) (t e : Stmt)
  /-- the statement `switch (c) body` -/
  | switchOn (c : Expr) (body : Stmt)
  /-- the statement `while (c) body` -/
  | whileLoop (c : Expr) (body : Stmt)
  /-- the statement `do body while (c);` -/
  | doWhile (body : Stmt) (c : Expr)
  /-- the statement `for (init; c; step) body` -/
  | forLoop (init : Stmt) (c step : Expr) (body : Stmt)
  /-- the statement `try body catch (...) handler` -/
  | tryCatch (body handler : Stmt)
deriving DecidableEq, Repr

/-- Whether an expression contains the conditional operator. -/
def Expr.hasConditional : Expr → Bool
  | .strLit _ => false
  | .var _ => false
  | .construct _ a => a.hasConditional
  | .memberCall r _ a => r.hasConditional || a.hasConditional
  | .conditional _ _ _ => true
  | .throwExpr e => e.hasConditional

/-- Whether an expression raises an exception. -/
def Expr.hasThrow : Expr → Bool
  | .strLit _ => false
  | .var _ => false
  | .construct _ a => a.hasThrow
  | .memberCall r _ a => r.hasThrow || a.hasThrow
  | .conditional c t e => c.hasThrow || t.hasThrow || e.hasThrow
  | .throwExpr _ => true

/-- Whether a statement contains a conditional: `if`, `switch` or `?:`. -/
def Stmt.hasConditional : Stmt → Bool
  | .declAuto _ i => i.hasConditional
  | .exprStmt e => e.hasConditional
  | .ifElse _ _ _ => true
  | .switchOn _ _ => true
  | .whileLoop c b => c.hasConditional || b.hasConditional
  | .doWhile b c => b.hasConditional || c.hasConditional
  | .forLoop i c s b =>
      i.hasConditional || c.hasConditional || s.hasConditional || b.hasConditional
  | .tryCatch b h => b.hasConditional || h.hasConditional

/-- Whether a statement contains a loop: `while`, `do` or `for`. -/
def Stmt.hasLoop : Stmt → Bool
  | .declAuto _ _ => false
  | .exprStmt _ => false
  | .ifElse _ t e => t.hasLoop || e.hasLoop
  | .switchOn _ b => b.hasLoop
  | .whileLoop _ _ => true
  | .doWhile _ _ => true
  | .forLoop _ _ _ _ => true
  | .tryCatch b h => b.hasLoop || h.hasLoop

/-- Whether a statement contains exception handling: a `try` block or a `throw`. -/
def Stmt.hasErrorHandling : Stmt → Bool
  | .declAuto _ i => i.hasThrow
  | .exprStmt e => e.hasThrow
  | .ifElse c t e => c.hasThrow || t.hasErrorHandling || e.hasErrorHandling
  | .switchOn c b => c.hasThrow || b.hasErrorHandling
  | .whileLoop c b => c.hasThrow || b.hasErrorHandling
  | .doWhile b c => b.hasErrorHandling || c.hasThrow
  | .forLoop i c s b =>
      i.hasErrorHandling || c.hasThrow || s.hasThrow || b.hasErrorHandling
  | .tryCatch _ _ => true

/-- The body of `main`, lines 10-11 of main.cc, statement by statement. -/
def mainBody : List Stmt :=
  [ .declAuto "greeter" (.construct "Greeter" (.strLit "Hello")),
    .exprStmt (.memberCall (.var "greeter") "greet" (.strLit "David")) ]

/-! ## Theorems -/

/-- Unfolding of the entry point: its result is the result of its one call of
`greet`, paired with exit status 0. -/
theorem main_unfold {W : Type} (greet : Greet W) (w : W) :
    main greet w = (greet { greeting := "Hello" } "David" w).map (fun w1 => (w1, 0)) := by
  simp only [main]
  generalize greet { greeting := "Hello" } "David" w = r
  cases r <;> rfl

/-- C1: for every world type and every implementation of `greet`, running `main`
is exactly the single call of `greet` on the Greeter holding "Hello" with the
name "David": `main` returns when and only when that call does, with the world
that call produced and exit status 0.  In particular, under the recording
implementation the calls made by `main` are that one call and nothing else. -/
theorem main_is_one_greet_call :
    (∀ (W : Type) (greet : Greet W),
        (fun w => (main greet w).map Prod.fst) = greet { greeting := "Hello" } "David") ∧
    (∀ (W : Type) (greet : Greet W) (w : W),
        main greet w = (greet { greeting := "Hello" } "David" w).map (fun w1 => (w1, 0))) ∧
    main recordingGreet [] = some ([({ greeting := "Hello" }, "David")], 0) := by
  refine ⟨?_, ?_, rfl⟩
  · intro W greet
    funext w
    rw [main_unfold]
    cases greet { greeting := "Hello" } "David" w <;> rfl
  · intro W greet w
    exact main_unfold greet w

/-- C2: a Greeter is determined by its `greeting` and nothing else: two Greeters
are equal exactly when their greetings are, the Greeter built from a string `s`
has greeting `s`, and so every string is the greeting of some Greeter. -/
theorem greeter_is_its_greeting :
    (∀ a b : Greeter, a = b ↔ a.greeting = b.greeting) ∧
    (∀ s : String, (Greeter.mk s).greeting = s) ∧
    Function.Bijective Greeter.greeting := by
  have hinj : ∀ a b : Greeter, a = b ↔ a.greeting = b.greeting := by
    intro a b
    constructor
    · intro h
      rw [h]
    · intro h
      cases a
      cases b
      simp only [Greeter.mk.injEq]
      exact h
  refine ⟨hinj, fun _ => rfl, ?_, ?_⟩
  · intro a b h
    exact (hinj a b).mpr h
  · intro s
    exact ⟨Greeter.mk s, rfl⟩

/-- C4, as the claim words it, fails: the body of `main` does not have three
statements, so the conjunction of "length three", "no conditional, loop or
exception handling" and "main returns whenever greet does" is false. -/
theorem main_body_not_three_statements :
    ¬ (mainBody.length = 3 ∧
       mainBody.any Stmt.hasConditional = false ∧
       mainBody.any Stmt.hasLoop = false ∧
       mainBody.any Stmt.hasErrorHandling = false ∧
       ∀ (W : Type) (greet : Greet W) (w : W),
         (main greet w).isSome = (greet { greeting := "Hello" } "David" w).isSome) := by
  intro h
  exact absurd h.1 (by decide)

/-- C4, amended: the body of `main` is a straight-line sequence of two statements
(a declaration and an expression statement) with no conditional, no loop and no
exception handling, and `main` returns exactly when its call of `greet` does. -/
theorem main_body_straight_line :
    mainBody.length = 2 ∧
    mainBody.any Stmt.hasConditional = false ∧
    mainBody.any Stmt.hasLoop = false ∧
    mainBody.any Stmt.hasErrorHandling = false ∧
    ∀ (W : Type) (greet : Greet W) (w : W),
      (main greet w).isSome = (greet { greeting := "Hello" } "David" w).isSome := by
  refine ⟨rfl, rfl, rfl, rfl, ?_⟩
  intro W greet w
  rw [main_unfold]
  cases greet { greeting := "Hello" } "David" w <;> rfl

end Dtimelog
